import Mathlib

set_option linter.unnecessarySeqFocus false

/-!
Shallow embedding of the Rate-Limited API Gateway (Python source under
`src/api_gateway/`) and proofs about its rate limiter, circuit breaker,
router/proxy error classification and rate-limit middleware.

Modelling conventions:
* Python `float` time values and token counts are modelled as rationals (`ℚ`);
  `time.monotonic()` readings become explicit `now : ℚ` parameters.  All the
  reads of the clock inside one lock-held critical section are modelled as a
  single `now` value.
* Python `int` fields (`max_tokens`, `token_cost`) are carried as `ℚ` so that
  the mixed int/float arithmetic of the source is uniform; integrality is
  never used by the source logic being verified.
* Python dicts keyed by client id are association lists with first-match
  lookup and in-place replacement on update, mirroring dict semantics.
* Mutating methods become functions returning the updated structure.
-/

namespace Gateway

/-- `ClientTier` from `models.py`. -/
inductive ClientTier
  | FREE
  | BASIC
  | PREMIUM
  | ENTERPRISE
deriving DecidableEq, Repr

/-- `RateLimitConfig` from `models.py` (pydantic requires both fields > 0). -/
structure RateLimitConfig where
  tokens_per_second : ℚ
  max_tokens : ℚ
deriving DecidableEq, Repr

/-- `TokenBucket` dataclass from `rate_limiter.py`. -/
structure TokenBucket where
  tokens : ℚ
  max_tokens : ℚ
  refill_rate : ℚ
  last_refill : ℚ
deriving DecidableEq, Repr

/-- `TokenBucket.refill`: clamp-added tokens for the elapsed interval and
stamp `last_refill`. -/
def TokenBucket.refill (b : TokenBucket) (now : ℚ) : TokenBucket :=
  { b with
    tokens := min b.max_tokens (b.tokens + (now - b.last_refill) * b.refill_rate)
    last_refill := now }

/-- Result triple of `TokenBucket.consume` plus the mutated bucket. -/
structure ConsumeResult where
  allowed : Bool
  retry_after : ℚ
  bucket : TokenBucket
deriving DecidableEq, Repr

/-- `TokenBucket.consume`: refill, then admit iff `tokens >= cost`. -/
def TokenBucket.consume (b : TokenBucket) (now : ℚ) (cost : ℚ) : ConsumeResult :=
  let b1 := b.refill now
  if cost ≤ b1.tokens then
    ⟨true, 0, { b1 with tokens := b1.tokens - cost }⟩
  else
    ⟨false, (cost - b1.tokens) / b1.refill_rate, b1⟩

/-- `TokenBucket.available_tokens` property: refills, then reads `tokens`.
Returns the read value together with the mutated bucket. -/
def TokenBucket.availableTokens (b : TokenBucket) (now : ℚ) : ℚ × TokenBucket :=
  let b1 := b.refill now
  (b1.tokens, b1)

/-- Association-list lookup with decidable string keys (dict read). -/
def lookupKey {α : Type} : List (String × α) → String → Option α
  | [], _ => none
  | (k', v) :: rest, k => if k' = k then some v else lookupKey rest k

/-- Association-list write (dict assignment: replace first occurrence or
append). -/
def setKey {α : Type} : List (String × α) → String → α → List (String × α)
  | [], k, v => [(k, v)]
  | (k', v') :: rest, k, v =>
    if k' = k then (k, v) :: rest else (k', v') :: setKey rest k v

/-- `RateLimiter` from `rate_limiter.py`.  `rate_configs` models
`self._rate_configs.get(tier, self._rate_configs[ClientTier.FREE])` as a total
lookup with the FREE fallback already applied (the source presupposes a FREE
entry). -/
structure RateLimiter where
  rate_configs : ClientTier → RateLimitConfig
  buckets : List (String × TokenBucket)
  client_tiers : List (String × ClientTier)

/-- `RateLimiter._get_or_create_bucket`: a fresh bucket is created full, with
`last_refill` stamped at creation time. -/
def RateLimiter.getOrCreateBucket (L : RateLimiter) (client : String)
    (tier : ClientTier) (now : ℚ) : TokenBucket × RateLimiter :=
  match lookupKey L.buckets client with
  | some b => (b, L)
  | none =>
    let cfg := L.rate_configs tier
    let b : TokenBucket := ⟨cfg.max_tokens, cfg.max_tokens, cfg.tokens_per_second, now⟩
    (b, { L with
            buckets := setKey L.buckets client b
            client_tiers := setKey L.client_tiers client tier })

/-- Result of `RateLimiter.check_rate_limit` plus the updated limiter. -/
structure CheckResult where
  allowed : Bool
  retry_after : ℚ
  remaining : ℚ
  limiter : RateLimiter

/-- `RateLimiter.check_rate_limit`: get-or-create the bucket, update capacity
and refill rate in place when the supplied tier differs from the stored one,
consume, and report `bucket.available_tokens` (a second refill at `now`). -/
def RateLimiter.checkRateLimit (L : RateLimiter) (client : String)
    (tier : ClientTier) (cost : ℚ) (now : ℚ) : CheckResult :=
  let p := L.getOrCreateBucket client tier now
  let L1 := p.2
  let bucket :=
    if lookupKey L1.client_tiers client ≠ some tier then
      let cfg := L1.rate_configs tier
      { p.1 with max_tokens := cfg.max_tokens, refill_rate := cfg.tokens_per_second }
    else p.1
  let L2 :=
    if lookupKey L1.client_tiers client ≠ some tier then
      { L1 with
          buckets := setKey L1.buckets client bucket
          client_tiers := setKey L1.client_tiers client tier }
    else L1
  let r := bucket.consume now cost
  let q := r.bucket.availableTokens now
  ⟨r.allowed, r.retry_after, q.1, { L2 with buckets := setKey L2.buckets client q.2 }⟩

/-- The dict returned by `RateLimiter.get_client_status` (fields used by the
spec; `client_id` is the argument echoed back). -/
structure ClientStatus where
  tier : ClientTier
  available_tokens : ℚ
  max_tokens : ℚ
  refill_rate : ℚ
  tokens_per_second : ℚ
deriving DecidableEq, Repr

/-- `RateLimiter.get_client_status`: `none` for an unknown client; otherwise
reads `bucket.available_tokens`, which refills the stored bucket. -/
def RateLimiter.getClientStatus (L : RateLimiter) (client : String)
    (now : ℚ) : Option ClientStatus × RateLimiter :=
  match lookupKey L.buckets client with
  | none => (none, L)
  | some b =>
    let tier := (lookupKey L.client_tiers client).getD ClientTier.FREE
    let q := b.availableTokens now
    (some ⟨tier, q.1, q.2.max_tokens, q.2.refill_rate, (L.rate_configs tier).tokens_per_second⟩,
     { L with buckets := setKey L.buckets client q.2 })

/-- `RateLimiter.reset_client`: set tokens to capacity and refresh
`last_refill`; `false` for an unknown client. -/
def RateLimiter.resetClient (L : RateLimiter) (client : String)
    (now : ℚ) : Bool × RateLimiter :=
  match lookupKey L.buckets client with
  | some b =>
    (true, { L with
               buckets := setKey L.buckets client
                 { b with tokens := b.max_tokens, last_refill := now } })
  | none => (false, L)

/-- `RateLimiter.cleanup_inactive`: evict every bucket with
`now - last_refill > max_idle_seconds`, dropping its tier entry too; return
the number evicted. -/
def RateLimiter.cleanupInactive (L : RateLimiter) (maxIdle : ℚ)
    (now : ℚ) : Nat × RateLimiter :=
  let removed := L.buckets.filter (fun p => decide (maxIdle < now - p.2.last_refill))
  let kept := L.buckets.filter (fun p => !decide (maxIdle < now - p.2.last_refill))
  (removed.length,
   { L with
       buckets := kept
       client_tiers :=
         L.client_tiers.filter (fun p => !(removed.map Prod.fst).contains p.1) })

/-- `CircuitState` from `circuit_breaker.py`. -/
inductive CircuitState
  | CLOSED
  | OPEN
  | HALF_OPEN
deriving DecidableEq, Repr

/-- `CircuitBreakerConfig` from `models.py` (pydantic: threshold ≥ 1,
timeout > 0, half_open_requests ≥ 1). -/
structure CircuitBreakerConfig where
  failure_threshold : Nat
  recovery_timeout : ℚ
  half_open_requests : Nat
deriving DecidableEq, Repr

/-- `CircuitStats` dataclass from `circuit_breaker.py`. -/
structure CircuitStats where
  total_requests : Nat := 0
  successful_requests : Nat := 0
  failed_requests : Nat := 0
  consecutive_failures : Nat := 0
  consecutive_successes : Nat := 0
  last_failure_time : Option ℚ := none
  last_success_time : Option ℚ := none
  state_changed_at : ℚ := 0
deriving DecidableEq, Repr

/-- `CircuitBreaker` state (the service name only feeds rejection-message
strings, which are not modelled). -/
structure CircuitBreaker where
  config : CircuitBreakerConfig
  state : CircuitState
  stats : CircuitStats
  half_open_count : Nat
deriving DecidableEq, Repr

/-- `CircuitBreaker.__init__`: CLOSED, fresh stats stamped at construction. -/
def CircuitBreaker.init (cfg : CircuitBreakerConfig) (now : ℚ) : CircuitBreaker :=
  ⟨cfg, CircuitState.CLOSED, { state_changed_at := now }, 0⟩

/-- `CircuitBreaker._should_transition_to_half_open`: OPEN and either no
recorded failure time or the recovery timeout elapsed. -/
def CircuitBreaker.shouldTransitionToHalfOpen (cb : CircuitBreaker) (now : ℚ) : Bool :=
  if cb.state ≠ CircuitState.OPEN then false
  else
    match cb.stats.last_failure_time with
    | none => true
    | some t => if cb.config.recovery_timeout ≤ now - t then true else false

/-- `CircuitBreaker._transition_to`: set the state, stamp `state_changed_at`;
entering CLOSED zeroes `consecutive_failures`, entering HALF_OPEN zeroes the
probe counter and `consecutive_successes`. -/
def CircuitBreaker.transitionTo (cb : CircuitBreaker) (s : CircuitState)
    (now : ℚ) : CircuitBreaker :=
  let cb1 := { cb with state := s, stats := { cb.stats with state_changed_at := now } }
  match s with
  | CircuitState.CLOSED =>
    { cb1 with stats := { cb1.stats with consecutive_failures := 0 } }
  | CircuitState.HALF_OPEN =>
    { cb1 with
        half_open_count := 0
        stats := { cb1.stats with consecutive_successes := 0 } }
  | CircuitState.OPEN => cb1

/-- `CircuitBreaker.can_execute`: first evaluate the OPEN→HALF_OPEN timer
(also re-zeroing the probe counter, as the source does), then admit in
CLOSED, reject in OPEN, and admit up to `half_open_requests` probes in
HALF_OPEN.  Rejection-reason strings are not modelled; only the admission
boolean and the mutated breaker are returned. -/
def CircuitBreaker.canExecute (cb : CircuitBreaker) (now : ℚ) : Bool × CircuitBreaker :=
  let cb1 :=
    if cb.shouldTransitionToHalfOpen now then
      { cb.transitionTo CircuitState.HALF_OPEN now with half_open_count := 0 }
    else cb
  match cb1.state with
  | CircuitState.CLOSED => (true, cb1)
  | CircuitState.OPEN => (false, cb1)
  | CircuitState.HALF_OPEN =>
    if cb1.half_open_count < cb1.config.half_open_requests then
      (true, { cb1 with half_open_count := cb1.half_open_count + 1 })
    else (false, cb1)

/-- `CircuitBreaker.record_success`: bump totals, zero consecutive failures,
stamp the success time; in HALF_OPEN close the circuit once
`consecutive_successes >= half_open_requests`. -/
def CircuitBreaker.recordSuccess (cb : CircuitBreaker) (now : ℚ) : CircuitBreaker :=
  let cb1 := { cb with
    stats := { cb.stats with
      total_requests := cb.stats.total_requests + 1
      successful_requests := cb.stats.successful_requests + 1
      consecutive_successes := cb.stats.consecutive_successes + 1
      consecutive_failures := 0
      last_success_time := some now } }
  if cb1.state = CircuitState.HALF_OPEN then
    if cb1.config.half_open_requests ≤ cb1.stats.consecutive_successes then
      cb1.transitionTo CircuitState.CLOSED now
    else cb1
  else cb1

/-- `CircuitBreaker.record_failure`: bump totals, zero consecutive successes,
stamp the failure time; any HALF_OPEN failure re-opens, and a CLOSED breaker
opens once `consecutive_failures >= failure_threshold`. -/
def CircuitBreaker.recordFailure (cb : CircuitBreaker) (now : ℚ) : CircuitBreaker :=
  let cb1 := { cb with
    stats := { cb.stats with
      total_requests := cb.stats.total_requests + 1
      failed_requests := cb.stats.failed_requests + 1
      consecutive_failures := cb.stats.consecutive_failures + 1
      consecutive_successes := 0
      last_failure_time := some now } }
  if cb1.state = CircuitState.HALF_OPEN then
    cb1.transitionTo CircuitState.OPEN now
  else if cb1.state = CircuitState.CLOSED then
    if cb1.config.failure_threshold ≤ cb1.stats.consecutive_failures then
      cb1.transitionTo CircuitState.OPEN now
    else cb1
  else cb1

/-- `CircuitBreaker.reset`: back to CLOSED with fresh stats. -/
def CircuitBreaker.resetBreaker (cb : CircuitBreaker) (now : ℚ) : CircuitBreaker :=
  ⟨cb.config, CircuitState.CLOSED, { state_changed_at := now }, 0⟩

/-- One operation of the breaker's public interface, with the monotonic time
at which it runs. -/
inductive CBOp
  | checkExec (now : ℚ)
  | success (now : ℚ)
  | failure (now : ℚ)
  | doReset (now : ℚ)
deriving DecidableEq, Repr

/-- Apply one breaker operation (the admission boolean of `can_execute` is
discarded for state evolution). -/
def CircuitBreaker.step (cb : CircuitBreaker) : CBOp → CircuitBreaker
  | CBOp.checkExec now => (cb.canExecute now).2
  | CBOp.success now => cb.recordSuccess now
  | CBOp.failure now => cb.recordFailure now
  | CBOp.doReset now => cb.resetBreaker now

/-- Run a sequence of breaker operations. -/
def CircuitBreaker.run (cb : CircuitBreaker) (ops : List CBOp) : CircuitBreaker :=
  ops.foldl CircuitBreaker.step cb

/-- Number of admissions among successive `can_execute` calls at the given
times, threading the mutated breaker. -/
def CircuitBreaker.admittedCount (cb : CircuitBreaker) : List ℚ → Nat
  | [] => 0
  | t :: ts =>
    let r := cb.canExecute t
    (if r.1 then 1 else 0) + r.2.admittedCount ts

/-- Outcome of one upstream call attempt as classified by
`RequestRouter.proxy_request` (`router.py`): an HTTP response of any status,
or one of the three transport-level exception classes. -/
inductive UpstreamResult
  | response (status : Nat)
  | timeout
  | connectError
  | otherError
deriving DecidableEq, Repr

/-- What `proxy_request` does from the caller's point of view. -/
inductive ProxyOutcome
  | ok (status : Nat)
  | circuitOpen
  | upstreamTimeout
  | upstreamConnectionError
  | reraised
deriving DecidableEq, Repr

/-- `RequestRouter.proxy_request`, reduced to its breaker interaction: check
admission; on denial raise `CircuitOpenError` without touching the upstream;
otherwise record success on any HTTP response and failure on the three
transport-exception paths. -/
def proxyRequest (cb : CircuitBreaker) (now : ℚ)
    (upstream : UpstreamResult) : ProxyOutcome × CircuitBreaker :=
  let r := cb.canExecute now
  if r.1 = false then (ProxyOutcome.circuitOpen, r.2)
  else
    match upstream with
    | UpstreamResult.response s => (ProxyOutcome.ok s, r.2.recordSuccess now)
    | UpstreamResult.timeout => (ProxyOutcome.upstreamTimeout, r.2.recordFailure now)
    | UpstreamResult.connectError =>
      (ProxyOutcome.upstreamConnectionError, r.2.recordFailure now)
    | UpstreamResult.otherError => (ProxyOutcome.reraised, r.2.recordFailure now)

/-- An error response produced by the dispatch layer in `main.py`. -/
structure ErrorResponse where
  status : Nat
  retryAfterHeader : Option Nat
deriving DecidableEq, Repr

/-- The exception mapping of `main.py`'s proxy endpoint: `CircuitOpenError →
503 + Retry-After: 30`, `UpstreamTimeoutError → 504`,
`UpstreamConnectionError → 502`; `ok` and re-raised exceptions are not mapped
here. -/
def dispatchProxyError : ProxyOutcome → Option ErrorResponse
  | ProxyOutcome.circuitOpen => some ⟨503, some 30⟩
  | ProxyOutcome.upstreamTimeout => some ⟨504, none⟩
  | ProxyOutcome.upstreamConnectionError => some ⟨502, none⟩
  | _ => none

/-- Python `int()` applied to a nonnegative-or-negative rational: truncation
toward zero. -/
def pyInt (q : ℚ) : ℤ := if q < 0 then -(⌊-q⌋) else ⌊q⌋

/-- The three numeric rate-limit headers of the middleware's 429 response. -/
structure RateLimitHeaders where
  retryAfter : ℤ
  rateLimitRemaining : ℤ
  rateLimitReset : ℤ
deriving DecidableEq, Repr

/-- The middleware response as far as status and rate-limit headers go. -/
structure MiddlewareResponse where
  status : Nat
  headers429 : Option RateLimitHeaders
  remainingHeader : Option ℤ
deriving DecidableEq, Repr

/-- `RateLimitMiddleware.dispatch` (`middleware.py`), for a non-exempt path:
check the limiter; on denial build a 429 with headers
`Retry-After: int(retry_after)+1`, `X-RateLimit-Remaining: int(remaining)`,
`X-RateLimit-Reset: int(time.time()+retry_after)`; on admission forward and
add `X-RateLimit-Remaining: int(remaining)`.  `wall` is the `time.time()`
reading; `downstreamStatus` is the forwarded handler's status. -/
def middlewareDispatch (L : RateLimiter) (client : String) (tier : ClientTier)
    (cost : ℚ) (now wall : ℚ) (downstreamStatus : Nat) :
    MiddlewareResponse × RateLimiter :=
  let r := L.checkRateLimit client tier cost now
  if r.allowed = false then
    (⟨429,
      some ⟨pyInt r.retry_after + 1, pyInt r.remaining, pyInt (wall + r.retry_after)⟩,
      none⟩, r.limiter)
  else
    (⟨downstreamStatus, none, some (pyInt r.remaining)⟩, r.limiter)

/-- Run a sequence of bare `can_execute` calls at the given times, keeping
only the final breaker state. -/
def CircuitBreaker.runChecks (cb : CircuitBreaker) : List ℚ → CircuitBreaker
  | [] => cb
  | t :: ts => ((cb.canExecute t).2).runChecks ts

/-- A small concrete breaker configuration used to instantiate theorems:
threshold 1, recovery timeout 1 s, one half-open probe. -/
def sampleCfg : CircuitBreakerConfig := ⟨1, 1, 1⟩

/-- A concrete OPEN breaker whose last failure happened at time 0. -/
def cbOpenSample : CircuitBreaker :=
  ⟨sampleCfg, CircuitState.OPEN,
   { failed_requests := 1, consecutive_failures := 1, last_failure_time := some 0 }, 0⟩

/-- A concrete HALF_OPEN breaker with no probes issued yet. -/
def cbHalfOpenSample : CircuitBreaker :=
  ⟨sampleCfg, CircuitState.HALF_OPEN,
   { failed_requests := 1, last_failure_time := some 0 }, 0⟩

/-- A concrete rate-limit configuration: 1 token/s, capacity 10. -/
def sampleRLConfig : RateLimitConfig := ⟨1, 10⟩

/-- A concrete limiter holding one client `"c"` whose bucket has half a token
left. -/
def sampleLimiter : RateLimiter :=
  ⟨fun _ => sampleRLConfig, [("c", ⟨1/2, 10, 1, 0⟩)], [("c", ClientTier.FREE)]⟩

/-- A concrete limiter holding one client `"c"` with an empty bucket. -/
def sampleLimiterEmpty : RateLimiter :=
  ⟨fun _ => sampleRLConfig, [("c", ⟨0, 10, 1, 0⟩)], [("c", ClientTier.FREE)]⟩

/-- Derived description (for the proofs below) of the bucket
`check_rate_limit` operates on after get-or-create and the in-place tier
update: a fresh full bucket for an unknown client, the capacity/rate-updated
bucket when the stored tier differs, the stored bucket otherwise. -/
def RateLimiter.effectiveBucket (L : RateLimiter) (client : String)
    (tier : ClientTier) (now : ℚ) : TokenBucket :=
  match lookupKey L.buckets client with
  | none =>
    let cfg := L.rate_configs tier
    ⟨cfg.max_tokens, cfg.max_tokens, cfg.tokens_per_second, now⟩
  | some b =>
    if lookupKey L.client_tiers client ≠ some tier then
      let cfg := L.rate_configs tier
      { b with max_tokens := cfg.max_tokens, refill_rate := cfg.tokens_per_second }
    else b

/-- The bucket invariant stated by the spec's data model:
`0 ≤ tokens ≤ capacity`. -/
def BucketInv (b : TokenBucket) : Prop :=
  0 ≤ b.tokens ∧ b.tokens ≤ b.max_tokens

/-- Breakers reachable by operation, starting OPEN only from a recorded
failure: an OPEN breaker carries a `last_failure_time`. -/
def OpenHasFailureTime (cb : CircuitBreaker) : Prop :=
  cb.state = CircuitState.OPEN → cb.stats.last_failure_time.isSome = true

theorem lookupKey_setKey_self {α : Type} (l : List (String × α)) (k : String) (v : α) :
    lookupKey (setKey l k v) k = some v := by
  induction l with
  | nil => simp [setKey, lookupKey]
  | cons p rest ih =>
    cases p with
    | mk k' v' =>
      by_cases h : k' = k <;> simp [setKey, lookupKey, h, ih]

theorem lookupKey_filter {α : Type} (l : List (String × α)) (k : String) (v : α)
    (p : String × α → Bool) (hl : lookupKey l k = some v) (hp : p (k, v) = true) :
    lookupKey (l.filter p) k = some v := by
  induction l with
  | nil => simp [lookupKey] at hl
  | cons q rest ih =>
    cases q with
    | mk k' v' =>
      by_cases h : k' = k
      · subst h
        simp [lookupKey] at hl
        subst hl
        simp [List.filter, hp, lookupKey]
      · simp [lookupKey, h] at hl
        cases hq : p (k', v') <;> simp [List.filter, hq, lookupKey, h, ih hl]

/-- Claim C1: on every admission attempt, `consume` first refills — the token
count becomes `min(capacity, tokens + elapsed * refill_rate)` and
`last_refill` becomes `now` — then admits exactly when the refilled count
covers the cost, decrementing by the cost with `retry_after = 0`; otherwise it
returns `retry_after = (cost - tokens) / refill_rate` and the failed consume
leaves the (refilled) token count unchanged. -/
theorem claim_C1_consume_spec (b : TokenBucket) (now cost : ℚ) :
    (b.refill now).tokens
        = min b.max_tokens (b.tokens + (now - b.last_refill) * b.refill_rate) ∧
    (b.refill now).last_refill = now ∧
    (b.consume now cost).bucket.last_refill = now ∧
    ((b.consume now cost).allowed = true ↔ cost ≤ (b.refill now).tokens) ∧
    ((b.consume now cost).allowed = true →
        (b.consume now cost).bucket.tokens = (b.refill now).tokens - cost ∧
        (b.consume now cost).retry_after = 0) ∧
    ((b.consume now cost).allowed = false →
        (b.consume now cost).bucket.tokens = (b.refill now).tokens ∧
        (b.consume now cost).retry_after
            = (cost - (b.refill now).tokens) / b.refill_rate) := by
  refine ⟨rfl, rfl, ?_, ?_, ?_, ?_⟩ <;>
    (simp only [TokenBucket.consume]
     by_cases h : cost ≤ (b.refill now).tokens) <;>
    simp [h] <;> rfl

theorem shouldTransition_eq_false (cb : CircuitBreaker) (now : ℚ)
    (hs : cb.state ≠ CircuitState.OPEN) :
    cb.shouldTransitionToHalfOpen now = false := by
  simp [CircuitBreaker.shouldTransitionToHalfOpen, hs]

theorem canExecute_closed (cb : CircuitBreaker) (now : ℚ)
    (hs : cb.state = CircuitState.CLOSED) :
    cb.canExecute now = (true, cb) := by
  have h := shouldTransition_eq_false cb now (by simp [hs])
  simp [CircuitBreaker.canExecute, h, hs]

theorem canExecute_halfOpen (cb : CircuitBreaker) (now : ℚ)
    (hs : cb.state = CircuitState.HALF_OPEN) :
    cb.canExecute now =
      if cb.half_open_count < cb.config.half_open_requests then
        (true, { cb with half_open_count := cb.half_open_count + 1 })
      else (false, cb) := by
  have h := shouldTransition_eq_false cb now (by simp [hs])
  simp [CircuitBreaker.canExecute, h, hs]

theorem canExecute_open_early (cb : CircuitBreaker) (now t : ℚ)
    (hs : cb.state = CircuitState.OPEN)
    (hf : cb.stats.last_failure_time = some t)
    (ht : ¬ cb.config.recovery_timeout ≤ now - t) :
    cb.canExecute now = (false, cb) := by
  have h : cb.shouldTransitionToHalfOpen now = false := by
    simp [CircuitBreaker.shouldTransitionToHalfOpen, hs, hf, ht]
  simp [CircuitBreaker.canExecute, h, hs]

theorem canExecute_open_elapsed (cb : CircuitBreaker) (now : ℚ)
    (ht : cb.shouldTransitionToHalfOpen now = true) :
    (cb.canExecute now).2.state = CircuitState.HALF_OPEN ∧
      ((cb.canExecute now).1 = true ↔ 0 < cb.config.half_open_requests) := by
  by_cases hreq : 0 < cb.config.half_open_requests <;>
    simp [CircuitBreaker.canExecute, ht, CircuitBreaker.transitionTo, hreq]

theorem openHasFailureTime_canExecute (cb : CircuitBreaker) (now : ℚ)
    (h : OpenHasFailureTime cb) : OpenHasFailureTime ((cb.canExecute now).2) := by
  cases hs : cb.state with
  | CLOSED => rw [canExecute_closed cb now hs]; exact h
  | HALF_OPEN =>
    rw [canExecute_halfOpen cb now hs]
    split <;> simp [OpenHasFailureTime, hs]
  | OPEN =>
    by_cases ht : cb.shouldTransitionToHalfOpen now = true
    · simp only [OpenHasFailureTime]
      intro hOpen'
      rw [(canExecute_open_elapsed cb now ht).1] at hOpen'
      cases hOpen'
    · simp only [CircuitBreaker.canExecute, eq_false_of_ne_true ht, Bool.false_eq_true,
        if_false, hs]
      intro _
      exact h hs

theorem openHasFailureTime_step (cb : CircuitBreaker) (op : CBOp)
    (h : OpenHasFailureTime cb) : OpenHasFailureTime (cb.step op) := by
  cases op with
  | checkExec now => exact openHasFailureTime_canExecute cb now h
  | success now =>
    cases hs : cb.state with
    | CLOSED =>
      simp [CircuitBreaker.step, CircuitBreaker.recordSuccess, hs, OpenHasFailureTime]
    | OPEN =>
      simp [CircuitBreaker.step, CircuitBreaker.recordSuccess, hs, OpenHasFailureTime]
      exact h hs
    | HALF_OPEN =>
      simp only [CircuitBreaker.step, CircuitBreaker.recordSuccess]
      simp only [hs]
      split <;>
        first
          | (split <;> simp [CircuitBreaker.transitionTo, OpenHasFailureTime])
          | simp [CircuitBreaker.transitionTo, OpenHasFailureTime]
  | failure now =>
    cases hs : cb.state <;>
      simp [CircuitBreaker.step, CircuitBreaker.recordFailure, hs, OpenHasFailureTime,
        CircuitBreaker.transitionTo] <;>
      (split <;> simp [CircuitBreaker.transitionTo, OpenHasFailureTime])
  | doReset now =>
    simp [CircuitBreaker.step, CircuitBreaker.resetBreaker, OpenHasFailureTime]

theorem openHasFailureTime_run (cb : CircuitBreaker) (ops : List CBOp)
    (h : OpenHasFailureTime cb) : OpenHasFailureTime (cb.run ops) := by
  induction ops generalizing cb with
  | nil => exact h
  | cons op rest ih => exact ih (cb.step op) (openHasFailureTime_step cb op h)

theorem openHasFailureTime_init (cfg : CircuitBreakerConfig) (now : ℚ) :
    OpenHasFailureTime (CircuitBreaker.init cfg now) := by
  simp [CircuitBreaker.init, OpenHasFailureTime]

theorem canExecute_of_open (cb : CircuitBreaker) (now t : ℚ)
    (hs : cb.state = CircuitState.OPEN)
    (hf : cb.stats.last_failure_time = some t)
    (hok : (cb.canExecute now).1 = true) :
    cb.config.recovery_timeout ≤ now - t ∧
      (cb.canExecute now).2.state = CircuitState.HALF_OPEN := by
  by_cases ht : cb.config.recovery_timeout ≤ now - t
  · have htr : cb.shouldTransitionToHalfOpen now = true := by
      simp [CircuitBreaker.shouldTransitionToHalfOpen, hs, hf, ht]
    exact ⟨ht, (canExecute_open_elapsed cb now htr).1⟩
  · rw [canExecute_open_early cb now t hs hf ht] at hok
    simp at hok

/-- Claim C2: starting from a fresh breaker, after any sequence of operations
that leaves the breaker OPEN, `can_execute` admits only when the recovery
timeout has elapsed since the recorded last failure, and such an admission
first moves the breaker to HALF_OPEN. -/
theorem claim_C2_open_never_admits_early (cfg : CircuitBreakerConfig)
    (now0 now : ℚ) (ops : List CBOp)
    (hopen : ((CircuitBreaker.init cfg now0).run ops).state = CircuitState.OPEN)
    (hok : (((CircuitBreaker.init cfg now0).run ops).canExecute now).1 = true) :
    ∃ t, ((CircuitBreaker.init cfg now0).run ops).stats.last_failure_time = some t ∧
      ((CircuitBreaker.init cfg now0).run ops).config.recovery_timeout ≤ now - t ∧
      (((CircuitBreaker.init cfg now0).run ops).canExecute now).2.state
        = CircuitState.HALF_OPEN := by
  have hinv := openHasFailureTime_run (CircuitBreaker.init cfg now0) ops
    (openHasFailureTime_init cfg now0)
  obtain ⟨t, ht⟩ := Option.isSome_iff_exists.mp (hinv hopen)
  obtain ⟨h1, h2⟩ := canExecute_of_open _ now t hopen ht hok
  exact ⟨t, ht, h1, h2⟩

/-- Witness for C2: one recorded failure at time 0 (threshold 1) opens the
breaker; at time 5 ≥ recovery-timeout 1 the check is admitted, and the
theorem applies. -/
theorem claim_C2_open_never_admits_early_witness :
    ((CircuitBreaker.init sampleCfg 0).run [CBOp.failure 0]).state = CircuitState.OPEN ∧
    (((CircuitBreaker.init sampleCfg 0).run [CBOp.failure 0]).canExecute 5).1 = true ∧
    (∃ t, ((CircuitBreaker.init sampleCfg 0).run [CBOp.failure 0]).stats.last_failure_time
        = some t ∧
      ((CircuitBreaker.init sampleCfg 0).run [CBOp.failure 0]).config.recovery_timeout
        ≤ 5 - t ∧
      (((CircuitBreaker.init sampleCfg 0).run [CBOp.failure 0]).canExecute 5).2.state
        = CircuitState.HALF_OPEN) :=
  ⟨by norm_num [CircuitBreaker.run, CircuitBreaker.step, CircuitBreaker.init,
      CircuitBreaker.recordFailure, CircuitBreaker.transitionTo, sampleCfg],
   by norm_num [CircuitBreaker.run, CircuitBreaker.step, CircuitBreaker.init,
      CircuitBreaker.recordFailure, CircuitBreaker.transitionTo, sampleCfg,
      CircuitBreaker.canExecute, CircuitBreaker.shouldTransitionToHalfOpen],
   claim_C2_open_never_admits_early sampleCfg 0 5 [CBOp.failure 0]
     (by norm_num [CircuitBreaker.run, CircuitBreaker.step, CircuitBreaker.init,
        CircuitBreaker.recordFailure, CircuitBreaker.transitionTo, sampleCfg])
     (by norm_num [CircuitBreaker.run, CircuitBreaker.step, CircuitBreaker.init,
        CircuitBreaker.recordFailure, CircuitBreaker.transitionTo, sampleCfg,
        CircuitBreaker.canExecute, CircuitBreaker.shouldTransitionToHalfOpen])⟩

theorem admittedCount_le (cb : CircuitBreaker) (ts : List ℚ)
    (hs : cb.state = CircuitState.HALF_OPEN) :
    cb.admittedCount ts ≤ cb.config.half_open_requests - cb.half_open_count := by
  induction ts generalizing cb with
  | nil => simp [CircuitBreaker.admittedCount]
  | cons t ts ih =>
    simp only [CircuitBreaker.admittedCount]
    rw [canExecute_halfOpen cb t hs]
    by_cases hc : cb.half_open_count < cb.config.half_open_requests
    · simp only [if_pos hc]
      have ih' := ih { cb with half_open_count := cb.half_open_count + 1 } (by simp [hs])
      simp at ih' ⊢
      omega
    · simp only [if_neg hc]
      have ih' := ih cb hs
      simp
      omega

theorem runChecks_halfOpen (cb : CircuitBreaker) (ts : List ℚ)
    (hs : cb.state = CircuitState.HALF_OPEN) :
    (cb.runChecks ts).state = CircuitState.HALF_OPEN := by
  induction ts generalizing cb with
  | nil => simpa [CircuitBreaker.runChecks] using hs
  | cons t ts ih =>
    simp only [CircuitBreaker.runChecks]
    rw [canExecute_halfOpen cb t hs]
    by_cases hc : cb.half_open_count < cb.config.half_open_requests
    · simp only [if_pos hc]
      exact ih _ (by simp [hs])
    · simp only [if_neg hc]
      exact ih cb hs

/-- Claim C3: while the breaker stays HALF_OPEN, any run of `can_execute`
calls admits at most `half_open_requests` of them (and those calls alone
never transition the breaker out of HALF_OPEN); once the probe counter has
reached `half_open_requests`, every further call is rejected. -/
theorem claim_C3_half_open_probe_bound (cb : CircuitBreaker) (ts : List ℚ)
    (hs : cb.state = CircuitState.HALF_OPEN) :
    cb.admittedCount ts ≤ cb.config.half_open_requests ∧
    (cb.runChecks ts).state = CircuitState.HALF_OPEN ∧
    (∀ t, cb.config.half_open_requests ≤ cb.half_open_count →
        (cb.canExecute t).1 = false) := by
  refine ⟨le_trans (admittedCount_le cb ts hs) (Nat.sub_le _ _),
    runChecks_halfOpen cb ts hs, fun t hreq => ?_⟩
  rw [canExecute_halfOpen cb t hs]
  simp [Nat.not_lt.mpr hreq]

/-- Witness for C3: the sample HALF_OPEN breaker (`half_open_requests = 1`,
no probes issued) admits at most one of three consecutive checks. -/
theorem claim_C3_half_open_probe_bound_witness :
    cbHalfOpenSample.admittedCount [0, 1, 2] ≤ cbHalfOpenSample.config.half_open_requests ∧
    (cbHalfOpenSample.runChecks [0, 1, 2]).state = CircuitState.HALF_OPEN ∧
    (∀ t, cbHalfOpenSample.config.half_open_requests ≤ cbHalfOpenSample.half_open_count →
        (cbHalfOpenSample.canExecute t).1 = false) :=
  claim_C3_half_open_probe_bound cbHalfOpenSample [0, 1, 2] rfl

/-- Claim C9: `record_success` while OPEN keeps the breaker OPEN — it bumps
the total and successful counters, zeroes `consecutive_failures`, stamps
`last_success_time`, and performs no state transition (`state_changed_at` is
untouched); `record_failure` does not leave OPEN either, so among the
transition-table events only a `can_execute` admission check can exit OPEN. -/
theorem claim_C9_success_in_open_keeps_open (cb : CircuitBreaker) (now : ℚ)
    (hs : cb.state = CircuitState.OPEN) :
    (cb.recordSuccess now).state = CircuitState.OPEN ∧
    (cb.recordSuccess now).stats.total_requests = cb.stats.total_requests + 1 ∧
    (cb.recordSuccess now).stats.successful_requests
        = cb.stats.successful_requests + 1 ∧
    (cb.recordSuccess now).stats.consecutive_failures = 0 ∧
    (cb.recordSuccess now).stats.last_success_time = some now ∧
    (cb.recordSuccess now).stats.state_changed_at = cb.stats.state_changed_at ∧
    (cb.recordFailure now).state = CircuitState.OPEN := by
  simp [CircuitBreaker.recordSuccess, CircuitBreaker.recordFailure, hs]

/-- Witness for C9 at the sample OPEN breaker. -/
theorem claim_C9_success_in_open_keeps_open_witness :
    (cbOpenSample.recordSuccess 5).state = CircuitState.OPEN ∧
    (cbOpenSample.recordSuccess 5).stats.total_requests
        = cbOpenSample.stats.total_requests + 1 ∧
    (cbOpenSample.recordSuccess 5).stats.successful_requests
        = cbOpenSample.stats.successful_requests + 1 ∧
    (cbOpenSample.recordSuccess 5).stats.consecutive_failures = 0 ∧
    (cbOpenSample.recordSuccess 5).stats.last_success_time = some 5 ∧
    (cbOpenSample.recordSuccess 5).stats.state_changed_at
        = cbOpenSample.stats.state_changed_at ∧
    (cbOpenSample.recordFailure 5).state = CircuitState.OPEN :=
  claim_C9_success_in_open_keeps_open cbOpenSample 5 rfl

theorem transitionTo_counters (cb : CircuitBreaker) (s : CircuitState) (now : ℚ) :
    (cb.transitionTo s now).stats.total_requests = cb.stats.total_requests ∧
    (cb.transitionTo s now).stats.successful_requests = cb.stats.successful_requests ∧
    (cb.transitionTo s now).stats.failed_requests = cb.stats.failed_requests := by
  cases s <;> simp [CircuitBreaker.transitionTo]

theorem canExecute_counters (cb : CircuitBreaker) (now : ℚ) :
    (cb.canExecute now).2.stats.total_requests = cb.stats.total_requests ∧
    (cb.canExecute now).2.stats.successful_requests = cb.stats.successful_requests ∧
    (cb.canExecute now).2.stats.failed_requests = cb.stats.failed_requests := by
  by_cases hb : cb.shouldTransitionToHalfOpen now = true
  · simp [CircuitBreaker.canExecute, hb, CircuitBreaker.transitionTo]
    all_goals split <;> simp
  · cases hs : cb.state with
    | CLOSED => rw [canExecute_closed cb now hs]; exact ⟨rfl, rfl, rfl⟩
    | HALF_OPEN =>
      rw [canExecute_halfOpen cb now hs]
      split <;> exact ⟨rfl, rfl, rfl⟩
    | OPEN =>
      have h : cb.shouldTransitionToHalfOpen now = false := by
        cases hx : cb.shouldTransitionToHalfOpen now
        · rfl
        · exact absurd hx hb
      simp [CircuitBreaker.canExecute, h, hs]

theorem recordSuccess_counters (cb : CircuitBreaker) (now : ℚ) :
    (cb.recordSuccess now).stats.total_requests = cb.stats.total_requests + 1 ∧
    (cb.recordSuccess now).stats.successful_requests
        = cb.stats.successful_requests + 1 ∧
    (cb.recordSuccess now).stats.failed_requests = cb.stats.failed_requests := by
  simp only [CircuitBreaker.recordSuccess]
  split
  · split <;> simp [CircuitBreaker.transitionTo]
  · simp

theorem recordFailure_counters (cb : CircuitBreaker) (now : ℚ) :
    (cb.recordFailure now).stats.total_requests = cb.stats.total_requests + 1 ∧
    (cb.recordFailure now).stats.successful_requests = cb.stats.successful_requests ∧
    (cb.recordFailure now).stats.failed_requests = cb.stats.failed_requests + 1 := by
  simp only [CircuitBreaker.recordFailure]
  split
  · simp [CircuitBreaker.transitionTo]
  · split
    · split <;> simp [CircuitBreaker.transitionTo]
    · simp

/-- Claim C4: when the breaker admits, a proxied request that yields an HTTP
response — of any status, 5xx included — records a success on the breaker
(successful count up by one, failed count untouched), while `record_failure`
is reserved for the three transport-error paths: timeout (raising
`UpstreamTimeoutError`), connection error (raising
`UpstreamConnectionError`), and any other client exception (re-raised). -/
theorem claim_C4_response_is_transport_success (cb : CircuitBreaker)
    (now : ℚ) (s : Nat) (hok : (cb.canExecute now).1 = true) :
    (proxyRequest cb now (UpstreamResult.response s)).2
        = ((cb.canExecute now).2).recordSuccess now ∧
    (proxyRequest cb now (UpstreamResult.response s)).1 = ProxyOutcome.ok s ∧
    (proxyRequest cb now (UpstreamResult.response s)).2.stats.successful_requests
        = cb.stats.successful_requests + 1 ∧
    (proxyRequest cb now (UpstreamResult.response s)).2.stats.failed_requests
        = cb.stats.failed_requests ∧
    (proxyRequest cb now UpstreamResult.timeout).2
        = ((cb.canExecute now).2).recordFailure now ∧
    (proxyRequest cb now UpstreamResult.timeout).1 = ProxyOutcome.upstreamTimeout ∧
    (proxyRequest cb now UpstreamResult.timeout).2.stats.failed_requests
        = cb.stats.failed_requests + 1 ∧
    (proxyRequest cb now UpstreamResult.timeout).2.stats.successful_requests
        = cb.stats.successful_requests ∧
    (proxyRequest cb now UpstreamResult.connectError).2
        = ((cb.canExecute now).2).recordFailure now ∧
    (proxyRequest cb now UpstreamResult.connectError).1
        = ProxyOutcome.upstreamConnectionError ∧
    (proxyRequest cb now UpstreamResult.otherError).2
        = ((cb.canExecute now).2).recordFailure now ∧
    (proxyRequest cb now UpstreamResult.otherError).1 = ProxyOutcome.reraised := by
  have hce := canExecute_counters cb now
  have hrs := recordSuccess_counters ((cb.canExecute now).2) now
  have hrf := recordFailure_counters ((cb.canExecute now).2) now
  simp only [proxyRequest, hok]
  simp only [Bool.true_eq_false, if_false]
  refine ⟨?_, ?_, ?_, ?_, ?_, ?_, ?_, ?_, ?_, ?_, ?_, ?_⟩ <;> first | trivial | omega

/-- Witness for C4: a fresh CLOSED breaker admits at time 0, and an upstream
500 response still records a transport success. -/
theorem claim_C4_response_is_transport_success_witness :
    (proxyRequest (CircuitBreaker.init sampleCfg 0) 0 (UpstreamResult.response 500)).2
        = (((CircuitBreaker.init sampleCfg 0).canExecute 0).2).recordSuccess 0 ∧
    (proxyRequest (CircuitBreaker.init sampleCfg 0) 0 (UpstreamResult.response 500)).1
        = ProxyOutcome.ok 500 ∧
    (proxyRequest (CircuitBreaker.init sampleCfg 0) 0
        (UpstreamResult.response 500)).2.stats.successful_requests
        = (CircuitBreaker.init sampleCfg 0).stats.successful_requests + 1 ∧
    (proxyRequest (CircuitBreaker.init sampleCfg 0) 0
        (UpstreamResult.response 500)).2.stats.failed_requests
        = (CircuitBreaker.init sampleCfg 0).stats.failed_requests ∧
    (proxyRequest (CircuitBreaker.init sampleCfg 0) 0 UpstreamResult.timeout).2
        = (((CircuitBreaker.init sampleCfg 0).canExecute 0).2).recordFailure 0 ∧
    (proxyRequest (CircuitBreaker.init sampleCfg 0) 0 UpstreamResult.timeout).1
        = ProxyOutcome.upstreamTimeout ∧
    (proxyRequest (CircuitBreaker.init sampleCfg 0) 0
        UpstreamResult.timeout).2.stats.failed_requests
        = (CircuitBreaker.init sampleCfg 0).stats.failed_requests + 1 ∧
    (proxyRequest (CircuitBreaker.init sampleCfg 0) 0
        UpstreamResult.timeout).2.stats.successful_requests
        = (CircuitBreaker.init sampleCfg 0).stats.successful_requests ∧
    (proxyRequest (CircuitBreaker.init sampleCfg 0) 0 UpstreamResult.connectError).2
        = (((CircuitBreaker.init sampleCfg 0).canExecute 0).2).recordFailure 0 ∧
    (proxyRequest (CircuitBreaker.init sampleCfg 0) 0 UpstreamResult.connectError).1
        = ProxyOutcome.upstreamConnectionError ∧
    (proxyRequest (CircuitBreaker.init sampleCfg 0) 0 UpstreamResult.otherError).2
        = (((CircuitBreaker.init sampleCfg 0).canExecute 0).2).recordFailure 0 ∧
    (proxyRequest (CircuitBreaker.init sampleCfg 0) 0 UpstreamResult.otherError).1
        = ProxyOutcome.reraised :=
  claim_C4_response_is_transport_success (CircuitBreaker.init sampleCfg 0) 0 500 rfl

/-- Claim C7: when the breaker denies admission, the proxy raises
`CircuitOpenError` — the outcome is the same whatever the upstream would have
answered, i.e. no upstream call is observable — the total/successful/failed
counters are untouched, and the dispatch layer maps the error to a 503 with a
`Retry-After` header (value 30). -/
theorem claim_C7_denial_short_circuits (cb : CircuitBreaker) (now : ℚ)
    (hdeny : (cb.canExecute now).1 = false) :
    (∀ u, (proxyRequest cb now u).1 = ProxyOutcome.circuitOpen) ∧
    (∀ u1 u2, proxyRequest cb now u1 = proxyRequest cb now u2) ∧
    (∀ u, (proxyRequest cb now u).2.stats.total_requests = cb.stats.total_requests ∧
        (proxyRequest cb now u).2.stats.successful_requests
            = cb.stats.successful_requests ∧
        (proxyRequest cb now u).2.stats.failed_requests = cb.stats.failed_requests) ∧
    dispatchProxyError ProxyOutcome.circuitOpen = some ⟨503, some 30⟩ := by
  have hce := canExecute_counters cb now
  refine ⟨fun u => ?_, fun u1 u2 => ?_, fun u => ?_, rfl⟩ <;>
    simp [proxyRequest, hdeny, hce]

/-- Witness for C7: the sample OPEN breaker denies at time 0 (before the
recovery timeout), and the theorem applies. -/
theorem claim_C7_denial_short_circuits_witness :
    (∀ u, (proxyRequest cbOpenSample 0 u).1 = ProxyOutcome.circuitOpen) ∧
    (∀ u1 u2, proxyRequest cbOpenSample 0 u1 = proxyRequest cbOpenSample 0 u2) ∧
    (∀ u, (proxyRequest cbOpenSample 0 u).2.stats.total_requests
            = cbOpenSample.stats.total_requests ∧
        (proxyRequest cbOpenSample 0 u).2.stats.successful_requests
            = cbOpenSample.stats.successful_requests ∧
        (proxyRequest cbOpenSample 0 u).2.stats.failed_requests
            = cbOpenSample.stats.failed_requests) ∧
    dispatchProxyError ProxyOutcome.circuitOpen = some ⟨503, some 30⟩ :=
  claim_C7_denial_short_circuits cbOpenSample 0
    (by norm_num [cbOpenSample, sampleCfg, CircuitBreaker.canExecute,
      CircuitBreaker.shouldTransitionToHalfOpen])

theorem pyInt_of_nonneg (q : ℚ) (h : 0 ≤ q) : pyInt q = ⌊q⌋ := by
  simp [pyInt, not_lt.mpr h]

/-- Counterexample to C5 as stated: with half a token left, cost 1, refill
rate 1, the limiter denies with `retry_after = 1/2`; the middleware's
`Retry-After` header is `int(1/2)+1 = 1`, whereas the claim's
`⌈retry_after⌉+1` would be `2`. -/
theorem claim_C5_denied_429_headers_counterexample :
    (sampleLimiter.checkRateLimit "c" ClientTier.FREE 1 0).allowed = false ∧
    (sampleLimiter.checkRateLimit "c" ClientTier.FREE 1 0).retry_after = 1/2 ∧
    (middlewareDispatch sampleLimiter "c" ClientTier.FREE 1 0 0 200).1.headers429
        = some ⟨1, 0, 0⟩ ∧
    (⌈(sampleLimiter.checkRateLimit "c" ClientTier.FREE 1 0).retry_after⌉ + 1 : ℤ) = 2 := by
  have h : sampleLimiter.checkRateLimit "c" ClientTier.FREE 1 0 =
      ⟨false, 1/2, 1/2,
        { sampleLimiter with
            buckets := [("c", ⟨1/2, 10, 1, 0⟩)] }⟩ := by
    norm_num [RateLimiter.checkRateLimit, RateLimiter.getOrCreateBucket, sampleLimiter,
      lookupKey, setKey, TokenBucket.consume, TokenBucket.refill,
      TokenBucket.availableTokens, sampleRLConfig]
  refine ⟨by rw [h], by rw [h], ?_, ?_⟩
  · simp only [middlewareDispatch, h]
    norm_num [pyInt]
  · rw [h]
    have hc : (⌈(1:ℚ)/2⌉ : ℤ) = 1 := by
      rw [Int.ceil_eq_iff]
      constructor <;> norm_num
    show (⌈(1:ℚ)/2⌉ + 1 : ℤ) = 2
    rw [hc]
    norm_num

/-- Claim C5 as amended: on a denial with `retry_after = r ≥ 0` and
`remaining = m ≥ 0` the middleware returns status 429 with headers
`Retry-After = ⌊r⌋ + 1` (Python `int()` truncation, not `⌈r⌉ + 1`),
`X-RateLimit-Remaining = ⌊m⌋`, and `X-RateLimit-Reset = ⌊wall + r⌋` where
`wall` is the epoch time at the check. -/
theorem claim_C5_denied_429_headers (L : RateLimiter) (client : String)
    (tier : ClientTier) (cost now wall : ℚ) (ds : Nat)
    (hdeny : (L.checkRateLimit client tier cost now).allowed = false)
    (hr : 0 ≤ (L.checkRateLimit client tier cost now).retry_after)
    (hm : 0 ≤ (L.checkRateLimit client tier cost now).remaining)
    (hw : 0 ≤ wall) :
    (middlewareDispatch L client tier cost now wall ds).1.status = 429 ∧
    (middlewareDispatch L client tier cost now wall ds).1.headers429
        = some ⟨⌊(L.checkRateLimit client tier cost now).retry_after⌋ + 1,
                ⌊(L.checkRateLimit client tier cost now).remaining⌋,
                ⌊wall + (L.checkRateLimit client tier cost now).retry_after⌋⟩ ∧
    (middlewareDispatch L client tier cost now wall ds).1.remainingHeader = none := by
  have h1 := pyInt_of_nonneg _ hr
  have h2 := pyInt_of_nonneg _ hm
  have h3 := pyInt_of_nonneg (wall + (L.checkRateLimit client tier cost now).retry_after)
    (by linarith)
  simp only [middlewareDispatch, hdeny]
  simp [h1, h2, h3]

/-- Witness for C5 (amended) at the sample limiter: denial with
`retry_after = 1/2` produces headers `(1, 0, 0)` with `wall = 0`. -/
theorem claim_C5_denied_429_headers_witness :
    (middlewareDispatch sampleLimiter "c" ClientTier.FREE 1 0 0 200).1.status = 429 ∧
    (middlewareDispatch sampleLimiter "c" ClientTier.FREE 1 0 0 200).1.headers429
        = some ⟨⌊(sampleLimiter.checkRateLimit "c" ClientTier.FREE 1 0).retry_after⌋ + 1,
                ⌊(sampleLimiter.checkRateLimit "c" ClientTier.FREE 1 0).remaining⌋,
                ⌊(0:ℚ) + (sampleLimiter.checkRateLimit "c" ClientTier.FREE 1 0).retry_after⌋⟩ ∧
    (middlewareDispatch sampleLimiter "c" ClientTier.FREE 1 0 0 200).1.remainingHeader
        = none :=
  claim_C5_denied_429_headers sampleLimiter "c" ClientTier.FREE 1 0 0 200
    (by norm_num [RateLimiter.checkRateLimit, RateLimiter.getOrCreateBucket, sampleLimiter,
      lookupKey, setKey, TokenBucket.consume, TokenBucket.refill,
      TokenBucket.availableTokens, sampleRLConfig])
    (by norm_num [RateLimiter.checkRateLimit, RateLimiter.getOrCreateBucket, sampleLimiter,
      lookupKey, setKey, TokenBucket.consume, TokenBucket.refill,
      TokenBucket.availableTokens, sampleRLConfig])
    (by norm_num [RateLimiter.checkRateLimit, RateLimiter.getOrCreateBucket, sampleLimiter,
      lookupKey, setKey, TokenBucket.consume, TokenBucket.refill,
      TokenBucket.availableTokens, sampleRLConfig])
    le_rfl

/-- Claim C8: `reset_client` returns true exactly for known clients; for a
known client it sets the bucket to full capacity with `last_refill = now`,
and an immediately following `get_client_status` reports
`available_tokens = max_tokens`; for an unknown client it returns false and
changes nothing. -/
theorem claim_C8_reset_then_status_full (L : RateLimiter) (client : String) (now : ℚ) :
    (L.resetClient client now).1 = (lookupKey L.buckets client).isSome ∧
    (∀ b, lookupKey L.buckets client = some b →
        lookupKey (L.resetClient client now).2.buckets client
            = some { b with tokens := b.max_tokens, last_refill := now } ∧
        ∃ st, (((L.resetClient client now).2).getClientStatus client now).1 = some st ∧
          st.available_tokens = b.max_tokens ∧ st.max_tokens = b.max_tokens) ∧
    (lookupKey L.buckets client = none → L.resetClient client now = (false, L)) := by
  cases hb : lookupKey L.buckets client with
  | none =>
    refine ⟨?_, ?_, ?_⟩ <;> simp [RateLimiter.resetClient, hb]
  | some b =>
    refine ⟨?_, ?_, ?_⟩
    · simp [RateLimiter.resetClient, hb]
    · intro b0 hb0
      cases hb0
      have hset : lookupKey (L.resetClient client now).2.buckets client
          = some { b with tokens := b.max_tokens, last_refill := now } := by
        simp [RateLimiter.resetClient, hb, lookupKey_setKey_self]
      refine ⟨hset, ?_⟩
      refine ⟨⟨(lookupKey (L.resetClient client now).2.client_tiers client).getD
        ClientTier.FREE, b.max_tokens, b.max_tokens, b.refill_rate,
        ((L.resetClient client now).2.rate_configs
          ((lookupKey (L.resetClient client now).2.client_tiers client).getD
            ClientTier.FREE)).tokens_per_second⟩, ?_, rfl, rfl⟩
      simp only [RateLimiter.getClientStatus, hset, TokenBucket.availableTokens,
        TokenBucket.refill]
      simp
    · intro h
      simp at h

/-- Witness for C8 at the sample limiter (bucket half full, capacity 10):
reset at time 3 reports 10 available tokens. -/
theorem claim_C8_reset_then_status_full_witness :
    (sampleLimiter.resetClient "c" 3).1 = (lookupKey sampleLimiter.buckets "c").isSome ∧
    (∀ b, lookupKey sampleLimiter.buckets "c" = some b →
        lookupKey (sampleLimiter.resetClient "c" 3).2.buckets "c"
            = some { b with tokens := b.max_tokens, last_refill := 3 } ∧
        ∃ st, (((sampleLimiter.resetClient "c" 3).2).getClientStatus "c" 3).1 = some st ∧
          st.available_tokens = b.max_tokens ∧ st.max_tokens = b.max_tokens) ∧
    (lookupKey sampleLimiter.buckets "c" = none →
        sampleLimiter.resetClient "c" 3 = (false, sampleLimiter)) :=
  claim_C8_reset_then_status_full sampleLimiter "c" 3

/-- Claim C10: `get_client_status` is not a pure read — for a client with a
bucket it stores back the refilled bucket, whose `last_refill` becomes `now`
and whose token count becomes `min(capacity, tokens + elapsed*rate)`; as a
consequence, a `cleanup_inactive` whose threshold covers the time since the
status query does not evict the client. -/
theorem claim_C10_status_refills_and_prevents_eviction (L : RateLimiter)
    (client : String) (now : ℚ) (b : TokenBucket)
    (hb : lookupKey L.buckets client = some b) :
    ((L.getClientStatus client now).1).isSome = true ∧
    lookupKey ((L.getClientStatus client now).2).buckets client = some (b.refill now) ∧
    (b.refill now).last_refill = now ∧
    (b.refill now).tokens
        = min b.max_tokens (b.tokens + (now - b.last_refill) * b.refill_rate) ∧
    (∀ now' maxIdle, now' - now ≤ maxIdle →
        lookupKey ((((L.getClientStatus client now).2).cleanupInactive maxIdle now').2).buckets
            client = some (b.refill now)) := by
  have hset : lookupKey ((L.getClientStatus client now).2).buckets client
      = some (b.refill now) := by
    simp [RateLimiter.getClientStatus, hb, TokenBucket.availableTokens,
      lookupKey_setKey_self]
  refine ⟨?_, hset, rfl, rfl, ?_⟩
  · simp [RateLimiter.getClientStatus, hb, TokenBucket.availableTokens]
  · intro now' maxIdle hidle
    simp only [RateLimiter.cleanupInactive]
    refine lookupKey_filter _ client (b.refill now) _ hset ?_
    simp [TokenBucket.refill]
    linarith

/-- Witness for C10 at the sample limiter: a status query at time 2 refills
the bucket to 5/2 tokens, stamps `last_refill = 2`, and a cleanup at time 10
with a 9-second idle window does not evict client `"c"`. -/
theorem claim_C10_status_refills_and_prevents_eviction_witness :
    ((sampleLimiter.getClientStatus "c" 2).1).isSome = true ∧
    lookupKey ((sampleLimiter.getClientStatus "c" 2).2).buckets "c"
        = some (TokenBucket.refill ⟨1/2, 10, 1, 0⟩ 2) ∧
    (TokenBucket.refill ⟨1/2, 10, 1, 0⟩ 2).last_refill = 2 ∧
    (TokenBucket.refill ⟨1/2, 10, 1, 0⟩ 2).tokens
        = min (10:ℚ) (1/2 + (2 - 0) * 1) ∧
    (∀ now' maxIdle, now' - 2 ≤ maxIdle →
        lookupKey ((((sampleLimiter.getClientStatus "c" 2).2).cleanupInactive
            maxIdle now').2).buckets "c"
          = some (TokenBucket.refill ⟨1/2, 10, 1, 0⟩ 2)) :=
  claim_C10_status_refills_and_prevents_eviction sampleLimiter "c" 2 ⟨1/2, 10, 1, 0⟩
    (by simp [sampleLimiter, lookupKey])

theorem refill_nonneg_inv (b : TokenBucket) (now : ℚ) (h0 : 0 ≤ b.tokens)
    (hcap : 0 ≤ b.max_tokens) (hr : 0 ≤ b.refill_rate) (hn : b.last_refill ≤ now) :
    BucketInv (b.refill now) := by
  constructor
  · have : (0:ℚ) ≤ b.tokens + (now - b.last_refill) * b.refill_rate :=
      add_nonneg h0 (mul_nonneg (by linarith) hr)
    simp only [TokenBucket.refill]
    exact le_min hcap this
  · simp only [TokenBucket.refill]
    exact min_le_left _ _

theorem refill_mono (b : TokenBucket) (now : ℚ) (hinv : BucketInv b)
    (hr : 0 ≤ b.refill_rate) (hn : b.last_refill ≤ now) :
    b.tokens ≤ (b.refill now).tokens := by
  simp only [TokenBucket.refill]
  exact le_min hinv.2 (le_add_of_nonneg_right (mul_nonneg (by linarith) hr))

theorem consume_bucket_fields (b : TokenBucket) (now cost : ℚ) :
    ((b.consume now cost).bucket).max_tokens = b.max_tokens ∧
    ((b.consume now cost).bucket).refill_rate = b.refill_rate ∧
    ((b.consume now cost).bucket).last_refill = now := by
  simp only [TokenBucket.consume]
  split <;> simp [TokenBucket.refill]

theorem consume_bucket_inv (b : TokenBucket) (now cost : ℚ) (h0 : 0 ≤ b.tokens)
    (hcap : 0 ≤ b.max_tokens) (hr : 0 ≤ b.refill_rate) (hn : b.last_refill ≤ now)
    (hc : 0 ≤ cost) : BucketInv ((b.consume now cost).bucket) := by
  have hri := refill_nonneg_inv b now h0 hcap hr hn
  simp only [TokenBucket.consume]
  split <;> rename_i hcond
  · constructor
    · simpa using sub_nonneg.mpr hcond
    · have h2 := hri.2
      simp only [TokenBucket.refill] at h2 ⊢
      linarith
  · exact hri

theorem consume_tokens_eq (b : TokenBucket) (now cost : ℚ) :
    ((b.consume now cost).allowed = true →
        (b.consume now cost).bucket.tokens = (b.refill now).tokens - cost) ∧
    ((b.consume now cost).allowed = false →
        (b.consume now cost).bucket.tokens = (b.refill now).tokens) := by
  simp only [TokenBucket.consume]
  split <;> simp

theorem effectiveBucket_facts (L : RateLimiter) (client : String) (tier : ClientTier)
    (now : ℚ)
    (hcap : 0 ≤ (L.rate_configs tier).max_tokens)
    (hrate : 0 ≤ (L.rate_configs tier).tokens_per_second)
    (hbuckets : ∀ b, lookupKey L.buckets client = some b →
        BucketInv b ∧ 0 ≤ b.refill_rate ∧ b.last_refill ≤ now) :
    0 ≤ (L.effectiveBucket client tier now).tokens ∧
    0 ≤ (L.effectiveBucket client tier now).max_tokens ∧
    0 ≤ (L.effectiveBucket client tier now).refill_rate ∧
    (L.effectiveBucket client tier now).last_refill ≤ now := by
  cases hlook : lookupKey L.buckets client with
  | none => simp [RateLimiter.effectiveBucket, hlook, hcap, hrate]
  | some b =>
    obtain ⟨hinv, hr, hn⟩ := hbuckets b hlook
    by_cases htier : lookupKey L.client_tiers client = some tier
    · simp only [RateLimiter.effectiveBucket, hlook, htier]
      simp [hinv.1, le_trans hinv.1 hinv.2, hr, hn]
    · simp only [RateLimiter.effectiveBucket, hlook]
      simp [htier, hinv.1, hcap, hrate, hn]

theorem checkRateLimit_stored (L : RateLimiter) (client : String) (tier : ClientTier)
    (cost now : ℚ) :
    lookupKey (L.checkRateLimit client tier cost now).limiter.buckets client
        = some (((L.effectiveBucket client tier now).consume now cost).bucket.refill now) ∧
    (L.checkRateLimit client tier cost now).allowed
        = ((L.effectiveBucket client tier now).consume now cost).allowed ∧
    (L.checkRateLimit client tier cost now).retry_after
        = ((L.effectiveBucket client tier now).consume now cost).retry_after ∧
    (L.checkRateLimit client tier cost now).remaining
        = (((L.effectiveBucket client tier now).consume now cost).bucket.refill now).tokens := by
  cases hlook : lookupKey L.buckets client with
  | none =>
    have htier : lookupKey (setKey L.client_tiers client tier) client = some tier :=
      lookupKey_setKey_self _ _ _
    simp only [RateLimiter.checkRateLimit, RateLimiter.getOrCreateBucket,
      RateLimiter.effectiveBucket, hlook, htier]
    simp [TokenBucket.availableTokens, lookupKey_setKey_self]
  | some b =>
    by_cases htier : lookupKey L.client_tiers client = some tier
    · simp only [RateLimiter.checkRateLimit, RateLimiter.getOrCreateBucket,
        RateLimiter.effectiveBucket, hlook, htier]
      simp [TokenBucket.availableTokens, lookupKey_setKey_self]
    · simp only [RateLimiter.checkRateLimit, RateLimiter.getOrCreateBucket,
        RateLimiter.effectiveBucket, hlook]
      simp [htier, TokenBucket.availableTokens, lookupKey_setKey_self]

/-- Counterexample to C6 as stated: `reset_client` also increases tokens,
and not through a refill — with an empty bucket (0 of 10 tokens, rate 1,
`last_refill = 0`) reset at time 0 jumps the count to 10, while the refill at
time 0 (the only refill an operation at that instant performs) leaves it
at 0. -/
theorem claim_C6_bucket_invariant_counterexample :
    lookupKey sampleLimiterEmpty.buckets "c" = some ⟨0, 10, 1, 0⟩ ∧
    lookupKey (sampleLimiterEmpty.resetClient "c" 0).2.buckets "c"
        = some ⟨10, 10, 1, 0⟩ ∧
    (TokenBucket.refill ⟨0, 10, 1, 0⟩ 0).tokens = 0 ∧
    ((10:ℚ)) ≠ 0 := by
  refine ⟨by simp [sampleLimiterEmpty, lookupKey], ?_, ?_, by norm_num⟩
  · simp [sampleLimiterEmpty, RateLimiter.resetClient, lookupKey, setKey]
  · norm_num [TokenBucket.refill]

/-- Claim C6 as amended: after `check_rate_limit` (bucket creation and tier
update included) the stored bucket satisfies `0 ≤ tokens ≤ capacity`; for a
stored bucket the invariant also holds after `reset_client` (tokens set to
capacity) and after the refill performed by `get_client_status`; a refill
never decreases tokens and a consume decreases them — by exactly the cost —
only when it succeeds.  (Unlike the original claim, `reset_client` is an
additional, direct increase of tokens to capacity, not a refill.) -/
theorem claim_C6_bucket_invariant_amended (L : RateLimiter) (client : String)
    (tier : ClientTier) (cost now : ℚ) (hcost : 0 ≤ cost)
    (hcap : 0 ≤ (L.rate_configs tier).max_tokens)
    (hrate : 0 ≤ (L.rate_configs tier).tokens_per_second)
    (hbuckets : ∀ b, lookupKey L.buckets client = some b →
        BucketInv b ∧ 0 ≤ b.refill_rate ∧ b.last_refill ≤ now) :
    (∃ b', lookupKey (L.checkRateLimit client tier cost now).limiter.buckets client
        = some b' ∧ BucketInv b') ∧
    (∀ b, lookupKey L.buckets client = some b →
        BucketInv { b with tokens := b.max_tokens, last_refill := now } ∧
        BucketInv (b.refill now) ∧
        b.tokens ≤ (b.refill now).tokens ∧
        ((b.consume now cost).allowed = true →
            (b.consume now cost).bucket.tokens = (b.refill now).tokens - cost) ∧
        ((b.consume now cost).allowed = false →
            (b.consume now cost).bucket.tokens = (b.refill now).tokens)) := by
  constructor
  · obtain ⟨he0, hecap, her, hen⟩ :=
      effectiveBucket_facts L client tier now hcap hrate hbuckets
    have hc1 := consume_bucket_inv (L.effectiveBucket client tier now) now cost
      he0 hecap her hen hcost
    obtain ⟨hfmax, hfrate, hflast⟩ :=
      consume_bucket_fields (L.effectiveBucket client tier now) now cost
    have hfinal := refill_nonneg_inv
      (((L.effectiveBucket client tier now).consume now cost).bucket) now
      hc1.1 (hfmax ▸ hecap) (hfrate ▸ her) (le_of_eq hflast)
    exact ⟨_, (checkRateLimit_stored L client tier cost now).1, hfinal⟩
  · intro b hb
    obtain ⟨hinv, hr, hn⟩ := hbuckets b hb
    have hcap' : (0:ℚ) ≤ b.max_tokens := le_trans hinv.1 hinv.2
    refine ⟨⟨by simpa using hcap', by simp⟩,
      refill_nonneg_inv b now hinv.1 hcap' hr hn,
      refill_mono b now hinv hr hn,
      (consume_tokens_eq b now cost).1,
      (consume_tokens_eq b now cost).2⟩

/-- Witness for C6 (amended) at the sample limiter (bucket `⟨1/2, 10, 1, 0⟩`,
FREE config 1 token/s, capacity 10, check at time 1 with cost 1). -/
theorem claim_C6_bucket_invariant_amended_witness :
    (∃ b', lookupKey (sampleLimiter.checkRateLimit "c" ClientTier.FREE 1 1).limiter.buckets
        "c" = some b' ∧ BucketInv b') ∧
    (∀ b, lookupKey sampleLimiter.buckets "c" = some b →
        BucketInv { b with tokens := b.max_tokens, last_refill := (1:ℚ) } ∧
        BucketInv (b.refill 1) ∧
        b.tokens ≤ (b.refill 1).tokens ∧
        ((b.consume 1 1).allowed = true →
            (b.consume 1 1).bucket.tokens = (b.refill 1).tokens - 1) ∧
        ((b.consume 1 1).allowed = false →
            (b.consume 1 1).bucket.tokens = (b.refill 1).tokens)) :=
  claim_C6_bucket_invariant_amended sampleLimiter "c" ClientTier.FREE 1 1
    (by norm_num) (by norm_num [sampleLimiter, sampleRLConfig])
    (by norm_num [sampleLimiter, sampleRLConfig])
    (by
      intro b hb
      simp only [sampleLimiter, lookupKey] at hb
      cases hb
      exact ⟨⟨by norm_num, by norm_num⟩, by norm_num, by norm_num⟩)

end Gateway
